import Mathlib

/-!
# Verification of the cp_trade multi-account order-execution core

Shallow embedding of the Python source under `src/` (instrument resolver,
order executor, basket order executor, account manager, threaded
orchestrator), together with theorems settling the specification claims.

Modelling conventions:
* Python `dict`s used as string-keyed maps become association lists
  `List (String × α)`; insertion overwrites an existing binding in place or
  appends a fresh one, matching `d[k] = v`.
* Python `None` becomes `Option.none`; a float field defaulted to `0.0`
  becomes a `Rat` (no floating-point arithmetic is performed by the code —
  prices are only compared to zero and passed through).
* Remote brokerage calls (`get_instrument_by_symbol`, `get_instrument_for_fno`,
  `place_order`, `place_basket_order`) are opaque collaborators; they are
  modelled as explicit function parameters returning `Except String _`
  (`.error` models the call raising an exception). Each model function
  additionally reports how many remote calls it issued / the payloads it sent,
  so that "the remote call is never invoked" is a provable statement.
* Exceptions raised by the modelled code are `Except.error` values carrying
  the exception class and message where the distinction matters.
* `str.strip().upper()` is modelled for the ASCII strings used by the
  configuration files as `String.trim` composed with `String.toUpper`.
-/

namespace CpTrade

/-- `d.get(k)` on a Python dict modelled as an association list. -/
def dictGet {α : Type} (m : List (String × α)) (k : String) : Option α :=
  (m.find? (fun p => p.1 == k)).map Prod.snd

/-- `d[k] = v` on a Python dict: overwrite the existing binding, else append. -/
def dictSet {α : Type} (m : List (String × α)) (k : String) (v : α) :
    List (String × α) :=
  if (m.find? (fun p => p.1 == k)).isSome then
    m.map (fun p => if p.1 == k then (k, v) else p)
  else
    m ++ [(k, v)]

/-- `str(x).strip().upper()` for the ASCII instrument keys of the configs:
drop leading/trailing whitespace from the character list, then uppercase
each character. -/
def stripUpper (s : String) : String :=
  String.mk ((((s.data.dropWhile Char.isWhitespace).reverse.dropWhile
    Char.isWhitespace).reverse).map Char.toUpper)

/-- Python's `c in s` membership test on a string. -/
def pyInStr (c : Char) (s : String) : Bool :=
  s.data.contains c

/-- The `Instrument` namedtuple of `instrument_resolver.py`
(`exchange, token, symbol, name, expiry, lot_size`). -/
structure Instrument where
  exchange : String
  token : String
  symbol : String
  name : String
  expiry : String
  lot_size : Nat
  deriving DecidableEq, Repr, Inhabited

/-- Shape of a value returned by the remote instrument-lookup calls, as
discriminated by `_normalize_instrument`: an object carrying an `exchange`
attribute (with `name`, `expiry`, `lot_size` possibly absent — `getattr`
defaults), a mapping (every field optional — `.get` defaults), or anything
else (unsupported). -/
inductive RawInstrument where
  | obj (exchange token symbol : String) (name expiry : Option String)
        (lot_size : Option Nat)
  | map (exchange token symbol name expiry : Option String) (lot_size : Option Nat)
  | unsupported (typeName : String)
  deriving DecidableEq, Repr

/-- `InstrumentResolver._normalize_instrument`: normalize object-like or
mapping-like remote results to the `Instrument` record; any other shape
raises `ValueError` (the commented-out empty-token validation is absent, as
in the source). -/
def normalize_instrument (result : RawInstrument) (exchange symbol : String) :
    Except String Instrument :=
  match result with
  | .obj ex tok sym nm expy lot =>
      .ok { exchange := ex, token := tok, symbol := sym,
            name := nm.getD "", expiry := expy.getD "", lot_size := lot.getD 1 }
  | .map ex tok sym nm expy lot =>
      .ok { exchange := ex.getD exchange, token := tok.getD "",
            symbol := sym.getD symbol, name := nm.getD "",
            expiry := expy.getD "", lot_size := lot.getD 1 }
  | .unsupported ty =>
      .error ("Unsupported instrument format: " ++ ty)

/-- Outcome of one resolver call: the returned value (`none` models the
`return None` failure path), the resolver cache after the call, and how many
remote lookup calls were issued. -/
structure ResolveOutcome where
  result : Option Instrument
  cache : List (String × Instrument)
  remoteCalls : Nat
  deriving DecidableEq, Repr

/-- `InstrumentResolver.resolve_equity`. `remote` models
`alice.get_instrument_by_symbol`; `.error` models the call (or the subsequent
normalization) raising, which the `except` clause turns into `None` with the
cache left unchanged. -/
def resolve_equity (remote : String → String → Except String RawInstrument)
    (cache : List (String × Instrument)) (exchange symbol : String) :
    ResolveOutcome :=
  let key := exchange ++ "_" ++ symbol
  match dictGet cache key with
  | some inst => { result := some inst, cache := cache, remoteCalls := 0 }
  | none =>
      match remote exchange symbol with
      | .error _ => { result := none, cache := cache, remoteCalls := 1 }
      | .ok raw =>
          match normalize_instrument raw exchange symbol with
          | .error _ => { result := none, cache := cache, remoteCalls := 1 }
          | .ok inst =>
              { result := some inst, cache := dictSet cache key inst,
                remoteCalls := 1 }

/-- The `opt_type` component of the F&O cache key:
`"FUT" if is_fut else f"{'CE' if is_ce else 'PE'}{strike}"` (Python renders
`None` as `"None"`). -/
def fnoOptType (is_fut : Bool) (strike : Option Int) (is_ce : Bool) : String :=
  if is_fut then "FUT"
  else (if is_ce then "CE" else "PE") ++
    (match strike with | some s => toString s | none => "None")

/-- `InstrumentResolver.resolve_fno`. `remote` models
`alice.get_instrument_for_fno`. -/
def resolve_fno
    (remote : String → String → String → Bool → Option Int → Bool →
      Except String RawInstrument)
    (cache : List (String × Instrument)) (exchange symbol expiry_date : String)
    (is_fut : Bool) (strike : Option Int) (is_ce : Bool) : ResolveOutcome :=
  let key := exchange ++ "_" ++ symbol ++ "_" ++ expiry_date ++ "_" ++
    fnoOptType is_fut strike is_ce
  match dictGet cache key with
  | some inst => { result := some inst, cache := cache, remoteCalls := 0 }
  | none =>
      match remote exchange symbol expiry_date is_fut strike is_ce with
      | .error _ => { result := none, cache := cache, remoteCalls := 1 }
      | .ok raw =>
          match normalize_instrument raw exchange symbol with
          | .error _ => { result := none, cache := cache, remoteCalls := 1 }
          | .ok inst =>
              { result := some inst, cache := dictSet cache key inst,
                remoteCalls := 1 }

/-! ## Order executor (`order_executor.py`) -/

/-- One element of a list-shaped remote response.
`_process_basket_response` only ever asks whether an element is a mapping
(and then reads `stat` / `NOrdNo` from it), so elements are a mapping or
anything else. -/
inductive RespItem where
  | idict (entries : List (String × String))
  | iother (typeName : String)
  deriving DecidableEq, Repr

/-- Shape of a remote order-placement response as discriminated by
`_process_response` / `_process_basket_response`: a list of items, a mapping
(string-valued fields such as `stat` and `NOrdNo`), or any other object. -/
inductive RemoteResponse where
  | rlist (items : List RespItem)
  | rdict (entries : List (String × String))
  | other (typeName : String)
  deriving DecidableEq, Repr

/-- Rendering of a mapping into the log/message strings (stands in for
Python's `str`/`repr` in the f-strings; no claim depends on its exact text). -/
def pyReprEntries : List (String × String) → String
  | [] => ""
  | [(k, v)] => k ++ ": " ++ v
  | (k, v) :: rest => k ++ ": " ++ v ++ ", " ++ pyReprEntries rest

/-- Rendering of one list element into the log/message strings. -/
def pyReprItem : RespItem → String
  | .idict entries => "\x7b" ++ pyReprEntries entries ++ "\x7d"
  | .iother ty => "<" ++ ty ++ ">"

/-- Rendering of a list body into the log/message strings. -/
def pyReprItems : List RespItem → String
  | [] => ""
  | [r] => pyReprItem r
  | r :: rest => pyReprItem r ++ ", " ++ pyReprItems rest

/-- Rendering of a whole response into the log/message strings. -/
def pyRepr : RemoteResponse → String
  | .rlist items => "[" ++ pyReprItems items ++ "]"
  | .rdict entries => "\x7b" ++ pyReprEntries entries ++ "\x7d"
  | .other ty => "<" ++ ty ++ ">"

/-- The normalized per-order result dict built by
`OrderExecutor._process_response`. -/
structure ProcessedResult where
  success : Bool
  order_number : Option String
  raw_response : RemoteResponse
  message : String
  deriving DecidableEq, Repr

/-- `OrderExecutor._process_response`: classify the remote response. A list
is checked first (empty → failure, non-empty → optimistic success with no
order number); then a mapping (success iff `stat == "Ok"`, order number from
`NOrdNo`); anything else is a failure. The raw response is always retained. -/
def process_response (name : String) (response : RemoteResponse) :
    ProcessedResult :=
  match response with
  | .rlist [] =>
      { success := false, order_number := none, raw_response := response,
        message := "Empty response - possible invalid token" }
  | .rlist (_ :: _) =>
      { success := true, order_number := none, raw_response := response,
        message := "Response: " ++ pyRepr response }
  | .rdict entries =>
      if dictGet entries "stat" = some "Ok" then
        { success := true, order_number := dictGet entries "NOrdNo",
          raw_response := response,
          message := "Order placed: NOrdNo=" ++
            (match dictGet entries "NOrdNo" with
             | some s => s
             | none => "None") }
      else
        { success := false, order_number := none, raw_response := response,
          message := "Order failed: " ++ pyRepr response }
  | .other ty =>
      { success := false, order_number := none, raw_response := response,
        message := "Unexpected response type: " ++ ty }

/-- An exception escaping `place_order`: either the dedicated
`OrderExecutionError` or the `AttributeError` raised by `getattr` on an
unrecognized enum name (that lookup is outside the `try`). -/
inductive PyError where
  | orderExecutionError (msg : String)
  | attributeError (msg : String)
  deriving DecidableEq, Repr

/-- `str(e)` on either exception. -/
def pyErrStr : PyError → String
  | .orderExecutionError m => m
  | .attributeError m => m

/-- The keyword arguments of `OrderExecutor.place_order`, with the defaults
of the Python signature (`price=0.0`, optionals `None`, `is_amo=False`,
`order_tag=""`). The instrument argument is `none` for Python `None`; a
present `Instrument` namedtuple is always truthy and always has a `token`
attribute. -/
structure OrderSpec where
  name : String
  transaction_type : String
  instrument : Option Instrument
  quantity : Int
  order_type : String
  product_type : String
  price : Rat := 0
  trigger_price : Option Rat := none
  stop_loss : Option Rat := none
  square_off : Option Rat := none
  trailing_sl : Option Rat := none
  is_amo : Bool := false
  order_tag : String := ""
  deriving DecidableEq, Repr

/-- The `order_params` dict handed to `alice.place_order(**order_params)`
after the `if v is not None` filter; an omitted key is `none`. -/
structure PlaceOrderPayload where
  transaction_type : String
  instrument : Instrument
  quantity : Int
  order_type : String
  product_type : String
  price : Option Rat
  trigger_price : Option Rat
  stop_loss : Option Rat
  square_off : Option Rat
  trailing_sl : Option Rat
  is_amo : Option Bool
  order_tag : Option String
  deriving DecidableEq, Repr

/-- The payload built by `place_order` lines 42–57: every key is present in
`order_params`, then `None` values are removed. `price` (a float, default
`0.0`), `is_amo` (a bool) and `order_tag` (a string) are never `None`, so
they always survive the filter; only the `None`-valued optionals drop out. -/
def buildOrderParams (spec : OrderSpec) (inst : Instrument)
    (txn ord prod : String) : PlaceOrderPayload :=
  { transaction_type := txn, instrument := inst, quantity := spec.quantity,
    order_type := ord, product_type := prod,
    price := some spec.price,
    trigger_price := spec.trigger_price,
    stop_loss := spec.stop_loss,
    square_off := spec.square_off,
    trailing_sl := spec.trailing_sl,
    is_amo := some spec.is_amo,
    order_tag := some spec.order_tag }

instance {ε α : Type} [DecidableEq ε] [DecidableEq α] : DecidableEq (Except ε α) :=
  fun x y =>
    match x, y with
    | .ok a, .ok b =>
        if h : a = b then .isTrue (by rw [h])
        else .isFalse (fun hc => h (Except.ok.inj hc))
    | .error a, .error b =>
        if h : a = b then .isTrue (by rw [h])
        else .isFalse (fun hc => h (Except.error.inj hc))
    | .ok _, .error _ => .isFalse (fun hc => Except.noConfusion hc)
    | .error _, .ok _ => .isFalse (fun hc => Except.noConfusion hc)

/-- Outcome of `place_order`: the returned result or escaping exception, and
the payloads of the remote `alice.place_order` invocations it made (empty ↔
the remote call was never attempted). -/
structure PlaceOutcome where
  result : Except PyError ProcessedResult
  remotePayloads : List PlaceOrderPayload
  deriving DecidableEq, Repr

/-- `OrderExecutor.place_order`. `txnEnum`/`orderEnum`/`productEnum` model
`getattr(TransactionType, ·)` etc. (`.error` = `AttributeError`); `remote`
models `alice.place_order` (`.error` = the call raising, wrapped by the
`except` into `OrderExecutionError("API Error: ...")`). The opening guard
`not instrument or not hasattr(instrument, 'token')` holds exactly when the
instrument is `None`: a 6-field namedtuple is always truthy and always has
the `token` attribute, so an instrument with an *empty* token passes it. -/
def place_order (txnEnum orderEnum productEnum : String → Except String String)
    (remote : PlaceOrderPayload → Except String RemoteResponse)
    (spec : OrderSpec) : PlaceOutcome :=
  match spec.instrument with
  | none =>
      { result := .error (.orderExecutionError
          ("Invalid instrument for " ++ spec.name)),
        remotePayloads := [] }
  | some inst =>
      match txnEnum spec.transaction_type with
      | .error e => { result := .error (.attributeError e), remotePayloads := [] }
      | .ok txn =>
          match orderEnum spec.order_type with
          | .error e => { result := .error (.attributeError e), remotePayloads := [] }
          | .ok ord =>
              match productEnum spec.product_type with
              | .error e => { result := .error (.attributeError e), remotePayloads := [] }
              | .ok prod =>
                  let payload := buildOrderParams spec inst txn ord prod
                  match remote payload with
                  | .error e =>
                      { result := .error (.orderExecutionError ("API Error: " ++ e)),
                        remotePayloads := [payload] }
                  | .ok resp =>
                      { result := .ok (process_response spec.name resp),
                        remotePayloads := [payload] }

/-! ## Basket order executor (`basket_order_executor.py`) -/

/-- An order/leg configuration dict (the shapes consumed by
`_execute_on_single_account` and `_build_order_dict`). Optional keys read
with `.get(k)` are `Option`; keys read with a `.get(k, default)` carry that
default as the structure default (`enabled=True`, `price=0.0`,
`is_amo=False`, `order_tag=""`). -/
structure OrderData where
  enabled : Bool := true
  name : String := ""
  instrument : String
  transaction_type : String
  quantity : Int
  order_type : String
  product_type : String
  price : Rat := 0
  trigger_price : Option Rat := none
  stop_loss : Option Rat := none
  square_off : Option Rat := none
  trailing_sl : Option Rat := none
  is_amo : Bool := false
  order_tag : String := ""
  deriving DecidableEq, Repr

/-- The per-leg dict built by `BasketOrderExecutor._build_order_dict`; a key
added only conditionally is `none` when not added. -/
structure BasketOrderDict where
  instrument : Instrument
  order_type : String
  quantity : Int
  transaction_type : String
  product_type : String
  order_tag : String
  price : Option Rat := none
  trigger_price : Option Rat := none
  stop_loss : Option Rat := none
  square_off : Option Rat := none
  trailing_sl : Option Rat := none
  is_amo : Option Bool := none
  deriving DecidableEq, Repr

/-- The mutable maps of one `InstrumentResolver`: `instruments` is the
pre-resolved shared table (the attribute assigned in `main.py` via
`session.resolver.instruments = self.instruments`), `cache` is the
resolver's own `self.cache`. -/
structure ResolverState where
  instruments : List (String × Instrument)
  cache : List (String × Instrument)
  deriving DecidableEq, Repr

/-- Python truthiness of the guard `instrument and instrument.token` on a
table lookup: a hit whose token string is non-empty. -/
def instrumentOk : Option Instrument → Bool
  | some i => i.token != ""
  | none => false

/-- Outcome of `_build_order_dict`: the built dict or the raised exception
message (`ValueError` / `AttributeError`), the resolver maps after the call,
and how many remote instrument-lookup calls were made. -/
structure BuildOutcome where
  result : Except String BasketOrderDict
  resolver : ResolverState
  lookupCalls : Nat
  deriving DecidableEq, Repr

/-- The fallback of `_build_order_dict` lines 63–77: a key containing an
underscore is never dynamically resolved (`ValueError: Invalid F&O
instrument`); a plain key triggers one `resolve_equity("NSE", key)` attempt,
cached into `resolver.instruments` on success, `ValueError` otherwise. -/
def dynamicEquityResolve (remoteEq : String → String → Except String RawInstrument)
    (st : ResolverState) (key : String) :
    Except String Instrument × ResolverState × Nat :=
  if pyInStr '_' key then
    (.error ("Invalid F&O instrument: " ++ key ++ ". Must be pre-defined."), st, 0)
  else
    let ro := resolve_equity remoteEq st.cache "NSE" key
    match ro.result with
    | some i =>
        if i.token != "" then
          (.ok i,
           { instruments := dictSet st.instruments key i, cache := ro.cache },
           ro.remoteCalls)
        else
          (.error ("Invalid instrument: " ++ key ++ " (dynamic resolution failed)"),
           { st with cache := ro.cache }, ro.remoteCalls)
    | none =>
        (.error ("Invalid instrument: " ++ key ++ " (dynamic resolution failed)"),
         { st with cache := ro.cache }, ro.remoteCalls)

/-- `BasketOrderExecutor._build_order_dict`. The instrument key is
normalized, looked up in `resolver.instruments`; a miss or empty token goes
through the dynamic-equity fallback. The enum `getattr`s are evaluated in
source order (`OrderType`, `TransactionType`, `ProductType`); optional keys
are added only when present / non-default (`price` only when `> 0`,
`is_amo` only when `True`). -/
def build_order_dict (txnEnum orderEnum productEnum : String → Except String String)
    (remoteEq : String → String → Except String RawInstrument)
    (st : ResolverState) (od : OrderData) : BuildOutcome :=
  let key := stripUpper od.instrument
  let resolved :=
    if instrumentOk (dictGet st.instruments key) then
      (Except.ok ((dictGet st.instruments key).getD default), st, 0)
    else
      dynamicEquityResolve remoteEq st key
  match resolved with
  | (.error e, st2, calls) => { result := .error e, resolver := st2, lookupCalls := calls }
  | (.ok i, st2, calls) =>
      match orderEnum od.order_type with
      | .error e => { result := .error e, resolver := st2, lookupCalls := calls }
      | .ok ordv =>
          match txnEnum od.transaction_type with
          | .error e => { result := .error e, resolver := st2, lookupCalls := calls }
          | .ok txnv =>
              match productEnum od.product_type with
              | .error e => { result := .error e, resolver := st2, lookupCalls := calls }
              | .ok prodv =>
                  { result := .ok
                      { instrument := i, order_type := ordv,
                        quantity := od.quantity, transaction_type := txnv,
                        product_type := prodv, order_tag := od.order_tag,
                        price := if od.price > 0 then some od.price else none,
                        trigger_price := od.trigger_price,
                        stop_loss := od.stop_loss,
                        square_off := od.square_off,
                        trailing_sl := od.trailing_sl,
                        is_amo := if od.is_amo then some true else none },
                    resolver := st2, lookupCalls := calls }

/-- A basket configuration dict; `name` and `enabled` carry the defaults the
source applies at access sites (`.get("name", "Unnamed Basket")`,
`.get("enabled", True)`). -/
structure BasketConfig where
  name : String := "Unnamed Basket"
  enabled : Bool := true
  orders : List OrderData := []
  deriving DecidableEq, Repr

/-- The result dict of `_process_basket_response`. `order_numbers` holds the
appended `resp.get('NOrdNo')` values; the single-mapping success branch
appends the raw `.get` result (possibly `None`), the list branch appends
only truthy order numbers. -/
structure BasketResponseResult where
  success : Bool
  basket_name : String
  raw_response : RemoteResponse
  order_numbers : List (Option String)
  message : String
  deriving DecidableEq, Repr

/-- A value returned by `execute_basket`: either one of the short-circuit
dicts `{"success": ..., "message": ...}` or the full
`_process_basket_response` result. -/
inductive ExecBasketReturn where
  | simple (success : Bool) (message : String)
  | processed (r : BasketResponseResult)
  deriving DecidableEq, Repr

/-- `BasketOrderExecutor._process_basket_response`. -/
def process_basket_response (basket_name : String) (response : RemoteResponse) :
    BasketResponseResult :=
  match response with
  | .rlist [] =>
      { success := false, basket_name := basket_name, raw_response := response,
        order_numbers := [], message := "Empty response from basket order" }
  | .rlist items =>
      { success := true, basket_name := basket_name, raw_response := response,
        order_numbers := items.filterMap (fun it =>
          match it with
          | .idict entries =>
              if dictGet entries "stat" = some "Ok" then
                match dictGet entries "NOrdNo" with
                | some n => if n != "" then some (some n) else none
                | none => none
              else none
          | .iother _ => none),
        message := " Basket executed with " ++ toString items.length ++ " responses" }
  | .rdict entries =>
      if dictGet entries "stat" = some "Ok" then
        { success := true, basket_name := basket_name, raw_response := response,
          order_numbers := [dictGet entries "NOrdNo"],
          message := "Order placed: NOrdNo=" ++
            (match dictGet entries "NOrdNo" with
             | some s => s
             | none => "None") }
      else
        { success := false, basket_name := basket_name, raw_response := response,
          order_numbers := [], message := " Basket failed: " ++ pyRepr response }
  | .other ty =>
      { success := false, basket_name := basket_name, raw_response := response,
        order_numbers := [], message := "Unexpected response type: " ++ ty }

/-- The leg-building loop of `execute_basket` lines 39–46: build each leg in
order, stopping at the first exception. Returns the built legs or the first
exception message, plus the resolver maps and lookup-call count. -/
def buildBasket (txnEnum orderEnum productEnum : String → Except String String)
    (remoteEq : String → String → Except String RawInstrument)
    (st : ResolverState) :
    List OrderData → Except String (List BasketOrderDict) × ResolverState × Nat
  | [] => (.ok [], st, 0)
  | od :: rest =>
      let b := build_order_dict txnEnum orderEnum productEnum remoteEq st od
      match b.result with
      | .error e => (.error e, b.resolver, b.lookupCalls)
      | .ok d =>
          match buildBasket txnEnum orderEnum productEnum remoteEq b.resolver rest with
          | (.error e, st2, calls) => (.error e, st2, b.lookupCalls + calls)
          | (.ok ds, st2, calls) => (.ok (d :: ds), st2, b.lookupCalls + calls)

/-- Outcome of `execute_basket`: the returned dict or the escaping
`BasketOrderExecutionError` message, the resolver maps afterwards, the
payloads submitted to `alice.place_basket_order` (empty ↔ the remote basket
call was never invoked), and the instrument-lookup call count. -/
structure ExecBasketOutcome where
  result : Except String ExecBasketReturn
  resolver : ResolverState
  basketPayloads : List (List BasketOrderDict)
  lookupCalls : Nat
  deriving DecidableEq, Repr

/-- `BasketOrderExecutor.execute_basket`. Disabled basket → `"Basket
disabled"`; empty order list → `"Empty basket"`; any leg-build exception →
`"Order build failed: <e>"` before any remote call; otherwise one
`place_basket_order` call whose exception is wrapped into
`BasketOrderExecutionError("API Error: ...")`. -/
def execute_basket (txnEnum orderEnum productEnum : String → Except String String)
    (remoteEq : String → String → Except String RawInstrument)
    (remoteBasket : List BasketOrderDict → Except String RemoteResponse)
    (st : ResolverState) (cfg : BasketConfig) : ExecBasketOutcome :=
  if cfg.enabled then
    match cfg.orders with
    | [] =>
        { result := .ok (.simple false "Empty basket"), resolver := st,
          basketPayloads := [], lookupCalls := 0 }
    | _ :: _ =>
        match buildBasket txnEnum orderEnum productEnum remoteEq st cfg.orders with
        | (.error e, st2, calls) =>
            { result := .ok (.simple false ("Order build failed: " ++ e)),
              resolver := st2, basketPayloads := [], lookupCalls := calls }
        | (.ok basket, st2, calls) =>
            match remoteBasket basket with
            | .error e =>
                { result := .error ("API Error: " ++ e), resolver := st2,
                  basketPayloads := [basket], lookupCalls := calls }
            | .ok resp =>
                { result := .ok (.processed (process_basket_response cfg.name resp)),
                  resolver := st2, basketPayloads := [basket], lookupCalls := calls }
  else
    { result := .ok (.simple false "Basket disabled"), resolver := st,
      basketPayloads := [], lookupCalls := 0 }

/-! ## Threaded orchestrator (`threaded_orchestrator.py`) -/

/-- `ThreadedOrchestrator._tag_basket_orders`. `basket.copy()` is a SHALLOW
copy: the `"orders"` list and the leg dicts inside it are shared between the
input basket and the copy, and `order["order_tag"] = ...` mutates each
shared leg dict in place. The first component is the caller's basket as
observed after the call; the second is the returned `basket_copy`. -/
def tag_basket_orders (basket : BasketConfig) (account_name : String) :
    BasketConfig × BasketConfig :=
  let mutatedOrders := basket.orders.map
    (fun o => { o with order_tag := account_name ++ "_" ++ o.order_tag })
  ({ basket with orders := mutatedOrders },
   { basket with orders := mutatedOrders })

/-- One entry appended to `account_results["individual_orders"]`: either the
dict returned by `place_order` or the `{"success": False, "error": str(e)}`
dict recorded when `place_order` raised. -/
inductive IndividualOrderRecord where
  | result (r : ProcessedResult)
  | failed (error : String)
  deriving DecidableEq, Repr

/-- The mutable state threaded through one account's order loop: the shared
pre-resolved `instruments` dict (aliased by `session.resolver.instruments`,
both updated together on dynamic resolution) and the session resolver's
`cache`. -/
structure TaskState where
  instruments : List (String × Instrument)
  cache : List (String × Instrument)
  deriving DecidableEq, Repr

/-- Accumulated observable effects of (part of) one account's order loop:
final state, appended `individual_orders` records, the keys for which a
dynamic `resolve_equity` attempt was issued, and the `logger.warning` lines
emitted for skipped orders. -/
structure RunOutcome where
  state : TaskState
  records : List IndividualOrderRecord
  dynamicAttempts : List String
  warnings : List String
  deriving DecidableEq, Repr

/-- The `try: place_order ... except` body of lines 93–116 for one order on
one account (the order tag is prefixed with the account name). -/
def placeOrderPhase (txnEnum orderEnum productEnum : String → Except String String)
    (placeRemote : PlaceOrderPayload → Except String RemoteResponse)
    (account_name : String) (od : OrderData) (i : Instrument) :
    IndividualOrderRecord :=
  let po := place_order txnEnum orderEnum productEnum placeRemote
    { name := od.name, transaction_type := od.transaction_type,
      instrument := some i, quantity := od.quantity,
      order_type := od.order_type, product_type := od.product_type,
      price := od.price, trigger_price := od.trigger_price,
      stop_loss := od.stop_loss, square_off := od.square_off,
      trailing_sl := od.trailing_sl, is_amo := od.is_amo,
      order_tag := account_name ++ "_" ++ od.order_tag }
  match po.result with
  | .ok r => .result r
  | .error e => .failed (pyErrStr e)

/-- One iteration of the order loop of
`ThreadedOrchestrator._execute_on_single_account` (lines 65–116): skip a
disabled order; look the normalized key up in the shared table; on a miss or
empty token, attempt dynamic equity resolution only when the key has no
underscore (caching a success into both the shared table and the resolver,
skipping with a warning otherwise), and skip keys containing an underscore
with a warning; then place the order, catching any exception as a
`{"success": False, "error": ...}` record. -/
def execOrderStep (txnEnum orderEnum productEnum : String → Except String String)
    (resolveRemote : String → String → Except String RawInstrument)
    (placeRemote : PlaceOrderPayload → Except String RemoteResponse)
    (account_name : String) (st : TaskState) (od : OrderData) : RunOutcome :=
  if od.enabled then
    let key := stripUpper od.instrument
    if instrumentOk (dictGet st.instruments key) then
      { state := st,
        records := [placeOrderPhase txnEnum orderEnum productEnum placeRemote
          account_name od ((dictGet st.instruments key).getD default)],
        dynamicAttempts := [], warnings := [] }
    else
      if pyInStr '_' key then
        { state := st, records := [], dynamicAttempts := [],
          warnings := ["❌ Invalid F&O instrument " ++ key ++ ", skipping"] }
      else
        let ro := resolve_equity resolveRemote st.cache "NSE" key
        match ro.result with
        | some i =>
            if i.token != "" then
              { state := { instruments := dictSet st.instruments key i,
                           cache := ro.cache },
                records := [placeOrderPhase txnEnum orderEnum productEnum
                  placeRemote account_name od i],
                dynamicAttempts := [key], warnings := [] }
            else
              { state := { st with cache := ro.cache }, records := [],
                dynamicAttempts := [key],
                warnings := ["❌ Dynamic resolution failed for " ++ key ++ ", skipping"] }
        | none =>
            { state := { st with cache := ro.cache }, records := [],
              dynamicAttempts := [key],
              warnings := ["❌ Dynamic resolution failed for " ++ key ++ ", skipping"] }
  else
    { state := st, records := [], dynamicAttempts := [], warnings := [] }

/-- The whole order loop of `_execute_on_single_account`: fold
`execOrderStep` over the configured orders, threading state and
concatenating the per-order effects. -/
def runOrders (txnEnum orderEnum productEnum : String → Except String String)
    (resolveRemote : String → String → Except String RawInstrument)
    (placeRemote : PlaceOrderPayload → Except String RemoteResponse)
    (account_name : String) (st : TaskState) :
    List OrderData → RunOutcome
  | [] => { state := st, records := [], dynamicAttempts := [], warnings := [] }
  | od :: rest =>
      let s := execOrderStep txnEnum orderEnum productEnum resolveRemote
        placeRemote account_name st od
      let r := runOrders txnEnum orderEnum productEnum resolveRemote
        placeRemote account_name s.state rest
      { state := r.state, records := s.records ++ r.records,
        dynamicAttempts := s.dynamicAttempts ++ r.dynamicAttempts,
        warnings := s.warnings ++ r.warnings }

/-- One entry of the orchestrator's result mapping: the value returned by
that account's task, or the `{"success": False, "error": str(e)}` dict
recorded when the task's future raised at the collection point. -/
inductive AccountEntry (ρ : Type) where
  | completed (r : ρ)
  | failed (error : String)
  deriving DecidableEq, Repr

/-- `ThreadedOrchestrator.execute_on_all_accounts`: submit
`_execute_on_single_account` once per session and collect each future's
result (or caught exception) under the account name. `task` is the
per-account task as a whole — `.error e` models its raising an unhandled
exception with message `e`. The Python dict is keyed by account name, so
this submission-ordered association list is its sequential denotation
(completion order only affects insertion order, not the mapping). -/
def execute_on_all_accounts {σ ρ : Type}
    (task : String → σ → Except String ρ)
    (sessions : List (String × σ)) : List (String × AccountEntry ρ) :=
  sessions.map (fun p =>
    (p.1, match task p.1 p.2 with
          | .ok r => AccountEntry.completed r
          | .error e => AccountEntry.failed e))

/-- `ThreadedOrchestrator.execute_basket_on_all_accounts`: identical
collection structure with `_execute_baskets_on_single_account` as the task. -/
def execute_basket_on_all_accounts {σ ρ : Type}
    (task : String → σ → Except String ρ)
    (sessions : List (String × σ)) : List (String × AccountEntry ρ) :=
  sessions.map (fun p =>
    (p.1, match task p.1 p.2 with
          | .ok r => AccountEntry.completed r
          | .error e => AccountEntry.failed e))

/-! ## Account manager (`account_manager.py`) -/

/-- One account descriptor dict (`{account_name, user_id, api_key, enabled}`,
`enabled` read with `.get("enabled", True)`). -/
structure AccountConfig where
  account_name : String
  user_id : String
  api_key : String
  enabled : Bool := true
  deriving DecidableEq, Repr

/-- `AccountManager.initialize_all` on a fresh manager. `initSingle` models
`_initialize_single` (authentication and component construction); `.error`
models it raising. A failed account is logged and excluded; a successful one
is stored under its name. `ThreadPoolExecutor(max_workers=min(5, n))` raises
`ValueError("max_workers must be greater than 0")` when `n = 0` (the
documented contract of the Python standard library pool), so zero enabled
accounts abort the call instead of yielding an empty mapping. -/
def initialize_all {σ : Type} (initSingle : AccountConfig → Except String σ)
    (accounts_config : List AccountConfig) :
    Except String (List (String × σ)) :=
  let enabled_accounts := accounts_config.filter (fun acc => acc.enabled)
  if enabled_accounts.length = 0 then
    .error "max_workers must be greater than 0"
  else
    .ok (enabled_accounts.filterMap (fun acc =>
      match initSingle acc with
      | .ok s => some (acc.account_name, s)
      | .error _ => none))

/-! ## Claim-side definitions (stated from the specification's words) -/

/-- Modelled from the claim's words (C4): the claimed three-way success
classification — a mapping with `stat == "Ok"` succeeds, a non-empty list
succeeds, everything else fails. -/
def claimedSuccessClassification : RemoteResponse → Bool
  | .rdict entries => dictGet entries "stat" == some "Ok"
  | .rlist items => !items.isEmpty
  | .other _ => false

/-- Modelled from the claim's words (C4): the claimed order number — taken
from `NOrdNo` exactly in the successful-mapping case. -/
def claimedOrderNumber : RemoteResponse → Option String
  | .rdict entries =>
      if dictGet entries "stat" = some "Ok" then dictGet entries "NOrdNo" else none
  | .rlist _ => none
  | .other _ => none

/-! ## Helper lemmas -/

theorem dictGet_dictSet_self {α : Type} (m : List (String × α)) (k : String) (v : α) :
    dictGet (dictSet m k v) k = some v := by
  unfold dictGet dictSet
  by_cases h : (m.find? (fun p => p.1 == k)).isSome
  · simp only [h, if_true]
    induction m with
    | nil => simp at h
    | cons p t ih =>
      by_cases hp : p.1 == k
      · simp [List.find?, hp]
      · simp only [List.map_cons, if_neg hp]
        simp only [List.find?_cons, hp, cond_false] at h ⊢
        exact ih h
  · simp only [h, if_false]
    induction m with
    | nil => simp [List.find?]
    | cons p t ih =>
      by_cases hp : p.1 == k
      · simp [List.find?, hp] at h
      · simp only [List.find?_cons, hp, cond_false] at h
        simpa [List.find?_cons, hp] using ih h

theorem append_ne_empty_left (a b : String) (h : a ≠ "") : a ++ b ≠ "" := by
  intro hc
  apply h
  cases a with
  | mk da =>
    cases b with
    | mk db =>
      have hdata : da ++ db = [] := congrArg String.data hc
      rcases List.append_eq_nil.mp hdata with ⟨ha, _⟩
      rw [ha]

/-! ## C4 — response classification -/

/-- C4: `OrderExecutor._process_response` classifies every remote response
deterministically in exactly three ways — a mapping with `stat = "Ok"`
succeeds with the order number taken from `NOrdNo`, a non-empty list
succeeds with no per-element validation and no order number, and an empty
list, a non-Ok mapping, or any other type fails — and in all cases the raw
response is retained and the message is non-empty. -/
theorem process_response_classification (name : String) (response : RemoteResponse) :
    (process_response name response).success = claimedSuccessClassification response ∧
    (process_response name response).order_number = claimedOrderNumber response ∧
    (process_response name response).raw_response = response ∧
    (process_response name response).message ≠ "" := by
  cases response with
  | rlist items =>
    cases items with
    | nil =>
      exact ⟨rfl, rfl, rfl,
        (by decide : ("Empty response - possible invalid token" : String) ≠ "")⟩
    | cons x xs =>
      exact ⟨rfl, rfl, rfl, append_ne_empty_left _ _ (by decide)⟩
  | rdict entries =>
    by_cases hstat : dictGet entries "stat" = some "Ok"
    · refine ⟨?_, ?_, ?_, ?_⟩
      · simp [process_response, claimedSuccessClassification, hstat]
      · simp [process_response, claimedOrderNumber, hstat]
      · simp [process_response, hstat]
      · simp only [process_response, hstat, if_true]
        exact append_ne_empty_left _ _ (by decide)
    · refine ⟨?_, ?_, ?_, ?_⟩
      · simp [process_response, claimedSuccessClassification, hstat]
      · simp [process_response, claimedOrderNumber, hstat]
      · simp [process_response, hstat]
      · simp only [process_response, hstat, if_false]
        exact append_ne_empty_left _ _ (by decide)
  | other ty =>
    exact ⟨rfl, rfl, rfl, append_ne_empty_left _ _ (by decide)⟩

/-! ## C2 — invalid-instrument guard in `place_order` -/

/-- C2 as stated is false: an instrument record whose token is empty passes
the guard `not instrument or not hasattr(instrument, 'token')` (a namedtuple
is truthy and has the attribute), so the remote `place_order` call IS
invoked for it. -/
theorem place_order_empty_token_reaches_remote :
    ((place_order (fun s => Except.ok s) (fun s => Except.ok s) (fun s => Except.ok s)
        (fun _ => Except.ok (RemoteResponse.rlist [RespItem.idict [("stat", "Ok")]]))
        { name := "T1", transaction_type := "BUY",
          instrument := some { exchange := "NSE", token := "", symbol := "X",
                               name := "", expiry := "", lot_size := 1 },
          quantity := 1, order_type := "MARKET",
          product_type := "MIS" }).remotePayloads.length = 1) ∧
    ((place_order (fun s => Except.ok s) (fun s => Except.ok s) (fun s => Except.ok s)
        (fun _ => Except.ok (RemoteResponse.rlist [RespItem.idict [("stat", "Ok")]]))
        { name := "T1", transaction_type := "BUY",
          instrument := some { exchange := "NSE", token := "", symbol := "X",
                               name := "", expiry := "", lot_size := 1 },
          quantity := 1, order_type := "MARKET",
          product_type := "MIS" }).result ≠
      Except.error (PyError.orderExecutionError "Invalid instrument for T1")) := by
  exact ⟨rfl, by decide⟩

/-- C2 (amended): `place_order` fails locally and synchronously with the
dedicated invalid-instrument `OrderExecutionError`, and never invokes the
remote call, exactly when the instrument argument is `None` (absent); an
instrument record that merely has an empty token is not rejected by this
guard. -/
theorem place_order_none_instrument
    (txnEnum orderEnum productEnum : String → Except String String)
    (remote : PlaceOrderPayload → Except String RemoteResponse)
    (spec : OrderSpec) (h : spec.instrument = none) :
    place_order txnEnum orderEnum productEnum remote spec =
      { result := Except.error (PyError.orderExecutionError
          ("Invalid instrument for " ++ spec.name)),
        remotePayloads := [] } := by
  unfold place_order
  rw [h]

theorem place_order_none_instrument_witness :
    place_order (fun s => Except.ok s) (fun s => Except.ok s) (fun s => Except.ok s)
      (fun _ => Except.ok (RemoteResponse.rlist []))
      { name := "T1", transaction_type := "BUY", instrument := none,
        quantity := 1, order_type := "MARKET", product_type := "MIS" } =
      { result := Except.error (PyError.orderExecutionError "Invalid instrument for T1"),
        remotePayloads := [] } :=
  place_order_none_instrument _ _ _ _ _ rfl

/-! ## C10 — zero enabled accounts -/

/-- C10: with zero enabled accounts, `initialize_all` raises (the worker
pool is constructed with `min(5, 0) = 0` workers, which `ThreadPoolExecutor`
rejects) instead of returning an empty mapping. -/
theorem initialize_all_zero_enabled {σ : Type}
    (initSingle : AccountConfig → Except String σ)
    (configs : List AccountConfig)
    (h : configs.filter (fun acc => acc.enabled) = []) :
    initialize_all initSingle configs =
      Except.error "max_workers must be greater than 0" := by
  unfold initialize_all
  simp [h]

theorem initialize_all_zero_enabled_witness :
    initialize_all (fun _ => (Except.ok () : Except String Unit))
      [{ account_name := "A", user_id := "u", api_key := "k", enabled := false }] =
      Except.error "max_workers must be greater than 0" :=
  initialize_all_zero_enabled _ _ (by decide)

/-! ## C5 — per-account initialization isolation -/

/-- C5 as stated ("for every account configuration list") is false at a
configuration with no enabled accounts: `initialize_all` raises instead of
returning a mapping. -/
theorem initialize_all_empty_config_raises :
    initialize_all (fun _ => (Except.ok () : Except String Unit)) [] =
      Except.error "max_workers must be greater than 0" := rfl

/-- C5 (amended): for every account configuration list with at least one
enabled account, `initialize_all` returns a mapping containing exactly the
enabled accounts whose initialization succeeded; a failing account is
excluded and does not affect any other account. -/
theorem initialize_all_characterization {σ : Type}
    (initSingle : AccountConfig → Except String σ)
    (configs : List AccountConfig)
    (h : ∃ acc ∈ configs, acc.enabled = true) :
    ∃ m, initialize_all initSingle configs = Except.ok m ∧
      ∀ n s, (n, s) ∈ m ↔
        ∃ acc ∈ configs, acc.enabled = true ∧ acc.account_name = n ∧
          initSingle acc = Except.ok s := by
  have hne : configs.filter (fun acc => acc.enabled) ≠ [] := by
    rcases h with ⟨acc, hmem, hen⟩
    intro hc
    have hin : acc ∈ configs.filter (fun acc => acc.enabled) :=
      List.mem_filter.mpr ⟨hmem, by simp [hen]⟩
    rw [hc] at hin
    simp at hin
  refine ⟨(configs.filter (fun acc => acc.enabled)).filterMap (fun acc =>
      match initSingle acc with
      | .ok s => some (acc.account_name, s)
      | .error _ => none), ?_, ?_⟩
  · unfold initialize_all
    rw [if_neg]
    simpa [List.length_eq_zero] using hne
  · intro n s
    rw [List.mem_filterMap]
    constructor
    · rintro ⟨acc, hmem, hf⟩
      rcases List.mem_filter.mp hmem with ⟨hm, hen⟩
      cases hini : initSingle acc with
      | ok s2 =>
        rw [hini] at hf
        have hpair : (acc.account_name, s2) = (n, s) := by
          simpa using hf
        rcases Prod.mk.injEq .. ▸ hpair with ⟨hn2, hs2⟩
        exact ⟨acc, hm, by simpa using hen, by
          constructor
          · exact hn2
          · rw [hini, hs2]⟩
      | error e =>
        rw [hini] at hf
        cases hf
    · rintro ⟨acc, hm, hen, hname, hinit⟩
      refine ⟨acc, List.mem_filter.mpr ⟨hm, by simp [hen]⟩, ?_⟩
      rw [hinit, hname]

/-- Witness for C5 (amended): three configured accounts, account B's
authentication throws; the returned mapping characterizes exactly A and C. -/
theorem initialize_all_characterization_witness :
    ∃ m, initialize_all
        (fun acc => if acc.account_name = "B" then Except.error "auth boom"
                    else Except.ok ())
        [{ account_name := "A", user_id := "uA", api_key := "kA", enabled := true },
         { account_name := "B", user_id := "uB", api_key := "kB", enabled := true },
         { account_name := "C", user_id := "uC", api_key := "kC", enabled := true }] =
        Except.ok m ∧
      ∀ n s, (n, s) ∈ m ↔
        ∃ acc ∈ [({ account_name := "A", user_id := "uA", api_key := "kA",
                     enabled := true } : AccountConfig),
                 { account_name := "B", user_id := "uB", api_key := "kB", enabled := true },
                 { account_name := "C", user_id := "uC", api_key := "kC", enabled := true }],
          acc.enabled = true ∧ acc.account_name = n ∧
          (if acc.account_name = "B" then Except.error "auth boom"
           else Except.ok ()) = Except.ok s :=
  initialize_all_characterization _ _
    ⟨{ account_name := "A", user_id := "uA", api_key := "kA", enabled := true },
     by simp, rfl⟩

/-! ## C1 — orchestrator fault isolation -/

/-- C1: for every sessions mapping and every per-account task,
`execute_on_all_accounts` (and `execute_basket_on_all_accounts`) returns a
mapping whose key set is exactly the sessions' key set; an account whose
task raises is recorded as `{success: false, error: <message>}`, and every
other account's entry is exactly what its task returned. -/
theorem orchestrator_fault_isolation {σ ρ₁ ρ₂ : Type}
    (sessions : List (String × σ))
    (task : String → σ → Except String ρ₁)
    (btask : String → σ → Except String ρ₂) :
    ((execute_on_all_accounts task sessions).map Prod.fst = sessions.map Prod.fst) ∧
    (∀ n s, (n, s) ∈ sessions →
      (∀ e, task n s = Except.error e →
        (n, AccountEntry.failed e) ∈ execute_on_all_accounts task sessions) ∧
      (∀ r, task n s = Except.ok r →
        (n, AccountEntry.completed r) ∈ execute_on_all_accounts task sessions)) ∧
    ((execute_basket_on_all_accounts btask sessions).map Prod.fst = sessions.map Prod.fst) ∧
    (∀ n s, (n, s) ∈ sessions →
      (∀ e, btask n s = Except.error e →
        (n, AccountEntry.failed e) ∈ execute_basket_on_all_accounts btask sessions) ∧
      (∀ r, btask n s = Except.ok r →
        (n, AccountEntry.completed r) ∈ execute_basket_on_all_accounts btask sessions)) := by
  refine ⟨?_, ?_, ?_, ?_⟩
  · simp [execute_on_all_accounts, List.map_map, Function.comp]
  · intro n s hmem
    constructor
    · intro e he
      have hm := List.mem_map_of_mem (fun p : String × σ =>
        (p.1, match task p.1 p.2 with
              | .ok r => AccountEntry.completed r
              | .error e => AccountEntry.failed e)) hmem
      simpa [execute_on_all_accounts, he] using hm
    · intro r hr
      have hm := List.mem_map_of_mem (fun p : String × σ =>
        (p.1, match task p.1 p.2 with
              | .ok r => AccountEntry.completed r
              | .error e => AccountEntry.failed e)) hmem
      simpa [execute_on_all_accounts, hr] using hm
  · simp [execute_basket_on_all_accounts, List.map_map, Function.comp]
  · intro n s hmem
    constructor
    · intro e he
      have hm := List.mem_map_of_mem (fun p : String × σ =>
        (p.1, match btask p.1 p.2 with
              | .ok r => AccountEntry.completed r
              | .error e => AccountEntry.failed e)) hmem
      simpa [execute_basket_on_all_accounts, he] using hm
    · intro r hr
      have hm := List.mem_map_of_mem (fun p : String × σ =>
        (p.1, match btask p.1 p.2 with
              | .ok r => AccountEntry.completed r
              | .error e => AccountEntry.failed e)) hmem
      simpa [execute_basket_on_all_accounts, hr] using hm

/-- Witness for C1: two sessions, account B's task raises; B is recorded as
a failure entry and sibling A's successful result is untouched. -/
theorem orchestrator_fault_isolation_witness :
    ("B", AccountEntry.failed "boom") ∈
      execute_on_all_accounts
        (fun n v => if n = "B" then Except.error "boom" else Except.ok v)
        [("A", (0 : Nat)), ("B", 1)] ∧
    ("A", AccountEntry.completed 0) ∈
      execute_on_all_accounts
        (fun n v => if n = "B" then Except.error "boom" else Except.ok v)
        [("A", (0 : Nat)), ("B", 1)] := by
  have h := orchestrator_fault_isolation
    [("A", (0 : Nat)), ("B", 1)]
    (fun n v => if n = "B" then Except.error "boom" else Except.ok v)
    (fun _ v => (Except.ok v : Except String Nat))
  exact ⟨(h.2.1 "B" 1 (by simp)).1 "boom" (by decide),
         (h.2.1 "A" 0 (by simp)).2 0 (by decide)⟩

/-! ## C6 — resolver cache behaviour -/

/-- C6 as stated is false: a key whose first resolution fails (remote lookup
raises) is not cached, so the immediately following second resolution issues
another remote call (1, not 0) and returns no Instrument. -/
theorem resolver_second_call_after_failure :
    (resolve_equity (fun _ _ => Except.error "lookup failed")
        (resolve_equity (fun _ _ => Except.error "lookup failed")
          [] "NSE" "RELIANCE").cache
        "NSE" "RELIANCE").remoteCalls = 1 ∧
    (resolve_equity (fun _ _ => Except.error "lookup failed")
        (resolve_equity (fun _ _ => Except.error "lookup failed")
          [] "NSE" "RELIANCE").cache
        "NSE" "RELIANCE").result = none := ⟨rfl, rfl⟩

/-- C6 (amended): for every instrument key whose first resolution succeeds,
resolving it again with the cache unchanged in between issues zero remote
lookup calls and returns the same Instrument record (both for
`resolve_equity` and `resolve_fno`); on a cache miss exactly one remote
lookup call is issued, and when it succeeds its normalized result is stored
in the cache under the computed key. A failed resolution stores nothing. -/
theorem resolver_cache_hit_after_success
    (remoteE : String → String → Except String RawInstrument)
    (remoteF : String → String → String → Bool → Option Int → Bool →
      Except String RawInstrument)
    (cache : List (String × Instrument)) (exchange symbol expiry_date : String)
    (is_fut : Bool) (strike : Option Int) (is_ce : Bool) (inst : Instrument) :
    ((resolve_equity remoteE cache exchange symbol).result = some inst →
      resolve_equity remoteE (resolve_equity remoteE cache exchange symbol).cache
          exchange symbol =
        { result := some inst,
          cache := (resolve_equity remoteE cache exchange symbol).cache,
          remoteCalls := 0 }) ∧
    (dictGet cache (exchange ++ "_" ++ symbol) = none →
      (resolve_equity remoteE cache exchange symbol).remoteCalls = 1 ∧
      ((resolve_equity remoteE cache exchange symbol).result = some inst →
        dictGet (resolve_equity remoteE cache exchange symbol).cache
          (exchange ++ "_" ++ symbol) = some inst)) ∧
    ((resolve_fno remoteF cache exchange symbol expiry_date is_fut strike is_ce).result
        = some inst →
      resolve_fno remoteF
          (resolve_fno remoteF cache exchange symbol expiry_date is_fut strike is_ce).cache
          exchange symbol expiry_date is_fut strike is_ce =
        { result := some inst,
          cache := (resolve_fno remoteF cache exchange symbol expiry_date
            is_fut strike is_ce).cache,
          remoteCalls := 0 }) ∧
    (dictGet cache (exchange ++ "_" ++ symbol ++ "_" ++ expiry_date ++ "_" ++
        fnoOptType is_fut strike is_ce) = none →
      (resolve_fno remoteF cache exchange symbol expiry_date is_fut strike is_ce).remoteCalls
        = 1 ∧
      ((resolve_fno remoteF cache exchange symbol expiry_date is_fut strike is_ce).result
          = some inst →
        dictGet (resolve_fno remoteF cache exchange symbol expiry_date
            is_fut strike is_ce).cache
          (exchange ++ "_" ++ symbol ++ "_" ++ expiry_date ++ "_" ++
            fnoOptType is_fut strike is_ce) = some inst)) := by
  refine ⟨?_, ?_, ?_, ?_⟩
  · intro h
    simp only [resolve_equity] at h ⊢
    cases hk : dictGet cache (exchange ++ "_" ++ symbol) with
    | some i =>
      simp only [hk] at h ⊢
      cases h
      simp
    | none =>
      simp only [hk] at h ⊢
      cases hr : remoteE exchange symbol with
      | error e => simp [hr] at h
      | ok raw =>
        simp only [hr] at h ⊢
        cases hn : normalize_instrument raw exchange symbol with
        | error e => simp [hn] at h
        | ok i2 =>
          simp only [hn] at h ⊢
          cases h
          simp [dictGet_dictSet_self]
  · intro hk
    simp only [resolve_equity, hk]
    cases hr : remoteE exchange symbol with
    | error e => simp
    | ok raw =>
      cases hn : normalize_instrument raw exchange symbol with
      | error e => simp [hn]
      | ok i2 =>
        simp only [hn]
        refine ⟨trivial, ?_⟩
        intro h
        injection h with h
        subst h
        simp [dictGet_dictSet_self]
  · intro h
    simp only [resolve_fno] at h ⊢
    cases hk : dictGet cache (exchange ++ "_" ++ symbol ++ "_" ++ expiry_date ++ "_" ++
        fnoOptType is_fut strike is_ce) with
    | some i =>
      simp only [hk] at h ⊢
      cases h
      simp
    | none =>
      simp only [hk] at h ⊢
      cases hr : remoteF exchange symbol expiry_date is_fut strike is_ce with
      | error e => simp [hr] at h
      | ok raw =>
        simp only [hr] at h ⊢
        cases hn : normalize_instrument raw exchange symbol with
        | error e => simp [hn] at h
        | ok i2 =>
          simp only [hn] at h ⊢
          cases h
          simp [dictGet_dictSet_self]
  · intro hk
    simp only [resolve_fno, hk]
    cases hr : remoteF exchange symbol expiry_date is_fut strike is_ce with
    | error e => simp
    | ok raw =>
      cases hn : normalize_instrument raw exchange symbol with
      | error e => simp [hn]
      | ok i2 =>
        simp only [hn]
        refine ⟨trivial, ?_⟩
        intro h
        injection h with h
        subst h
        simp [dictGet_dictSet_self]

/-- Witness for C6 (amended): concrete successful lookups for an equity and
an option; the second resolution of each is a pure cache hit. -/
theorem resolver_cache_hit_after_success_witness :
    (resolve_equity (fun _ _ => Except.ok (RawInstrument.map none (some "2885")
          none none none none))
        (resolve_equity (fun _ _ => Except.ok (RawInstrument.map none (some "2885")
          none none none none)) [] "NSE" "RELIANCE").cache
        "NSE" "RELIANCE" =
      { result := some { exchange := "NSE", token := "2885", symbol := "RELIANCE",
                         name := "", expiry := "", lot_size := 1 },
        cache := (resolve_equity (fun _ _ => Except.ok (RawInstrument.map none
          (some "2885") none none none none)) [] "NSE" "RELIANCE").cache,
        remoteCalls := 0 }) ∧
    ((resolve_equity (fun _ _ => Except.ok (RawInstrument.map none (some "2885")
        none none none none)) [] "NSE" "RELIANCE").remoteCalls = 1) ∧
    (resolve_fno (fun _ _ _ _ _ _ => Except.ok (RawInstrument.obj "NFO" "43625"
          "NIFTY" none none none))
        (resolve_fno (fun _ _ _ _ _ _ => Except.ok (RawInstrument.obj "NFO" "43625"
          "NIFTY" none none none)) [] "NFO" "NIFTY" "2024-12-26" false
          (some 26000) true).cache
        "NFO" "NIFTY" "2024-12-26" false (some 26000) true =
      { result := some { exchange := "NFO", token := "43625", symbol := "NIFTY",
                         name := "", expiry := "", lot_size := 1 },
        cache := (resolve_fno (fun _ _ _ _ _ _ => Except.ok (RawInstrument.obj "NFO"
          "43625" "NIFTY" none none none)) [] "NFO" "NIFTY" "2024-12-26" false
          (some 26000) true).cache,
        remoteCalls := 0 }) ∧
    ((resolve_fno (fun _ _ _ _ _ _ => Except.ok (RawInstrument.obj "NFO" "43625"
        "NIFTY" none none none)) [] "NFO" "NIFTY" "2024-12-26" false
        (some 26000) true).remoteCalls = 1) := by
  have h := resolver_cache_hit_after_success
    (fun _ _ => Except.ok (RawInstrument.map none (some "2885") none none none none))
    (fun _ _ _ _ _ _ => Except.ok (RawInstrument.obj "NFO" "43625" "NIFTY"
      none none none))
    [] "NSE" "RELIANCE" "2024-12-26" false (some 26000) true
    { exchange := "NSE", token := "2885", symbol := "RELIANCE",
      name := "", expiry := "", lot_size := 1 }
  have h2 := resolver_cache_hit_after_success
    (fun _ _ => Except.ok (RawInstrument.map none (some "2885") none none none none))
    (fun _ _ _ _ _ _ => Except.ok (RawInstrument.obj "NFO" "43625" "NIFTY"
      none none none))
    [] "NFO" "NIFTY" "2024-12-26" false (some 26000) true
    { exchange := "NFO", token := "43625", symbol := "NIFTY",
      name := "", expiry := "", lot_size := 1 }
  refine ⟨h.1 rfl, (h.2.1 rfl).1, ?_, ?_⟩
  · have hf := h2.2.2.1 rfl
    exact hf
  · have hf := (h2.2.2.2 rfl).1
    exact hf

/-! ## C3 — resolve-then-submit gate for baskets -/

/-- C3: for every enabled, non-empty basket whose leg-building loop raises
(at least one leg fails instrument resolution or enum mapping),
`execute_basket` returns `{success: false, message: "Order build failed:
..."}` and never invokes the remote `place_basket_order` call. -/
theorem execute_basket_build_failure_gate
    (txnEnum orderEnum productEnum : String → Except String String)
    (remoteEq : String → String → Except String RawInstrument)
    (remoteBasket : List BasketOrderDict → Except String RemoteResponse)
    (st : ResolverState) (cfg : BasketConfig) (e : String)
    (hen : cfg.enabled = true) (hne : cfg.orders ≠ [])
    (hb : (buildBasket txnEnum orderEnum productEnum remoteEq st cfg.orders).1 =
      Except.error e) :
    (execute_basket txnEnum orderEnum productEnum remoteEq remoteBasket st cfg).result =
      Except.ok (ExecBasketReturn.simple false ("Order build failed: " ++ e)) ∧
    (execute_basket txnEnum orderEnum productEnum remoteEq remoteBasket st cfg).basketPayloads
      = [] := by
  unfold execute_basket
  simp only [hen, if_true]
  cases hcfg : cfg.orders with
  | nil => exact absurd hcfg hne
  | cons od rest =>
    rw [hcfg] at hb
    rcases hbb : buildBasket txnEnum orderEnum productEnum remoteEq st (od :: rest)
      with ⟨r, st2, calls⟩
    rw [hbb] at hb
    simp only [] at hb
    subst hb
    simp [hbb]

/-- Witness for C3: a one-leg basket whose F&O key is absent from the
pre-resolved table fails the build and the basket remote call is never
made. -/
theorem execute_basket_build_failure_gate_witness :
    (execute_basket (fun s => Except.ok s) (fun s => Except.ok s)
        (fun s => Except.ok s) (fun _ _ => Except.error "no remote")
        (fun _ => Except.ok (RemoteResponse.rlist []))
        { instruments := [], cache := [] }
        { name := "BK", enabled := true,
          orders := [{ name := "L1", instrument := "NIFTY_DEC30_CE_26000",
                       transaction_type := "BUY", quantity := 75,
                       order_type := "MARKET", product_type := "MIS" }] }).result =
      Except.ok (ExecBasketReturn.simple false
        ("Order build failed: " ++
          "Invalid F&O instrument: NIFTY_DEC30_CE_26000. Must be pre-defined.")) ∧
    (execute_basket (fun s => Except.ok s) (fun s => Except.ok s)
        (fun s => Except.ok s) (fun _ _ => Except.error "no remote")
        (fun _ => Except.ok (RemoteResponse.rlist []))
        { instruments := [], cache := [] }
        { name := "BK", enabled := true,
          orders := [{ name := "L1", instrument := "NIFTY_DEC30_CE_26000",
                       transaction_type := "BUY", quantity := 75,
                       order_type := "MARKET", product_type := "MIS" }] }).basketPayloads
      = [] :=
  execute_basket_build_failure_gate _ _ _ _ _ _ _ _ rfl (by decide) (by decide)

/-! ## C7 — optional payload fields -/

/-- C7 as stated is false for `place_order`: a specification with the
default price (`0.0`) and default after-market flag (`False`) still gets
both fields in the remote payload — the filter only removes `None` values. -/
theorem place_order_includes_default_price_and_amo :
    ((place_order (fun s => Except.ok s) (fun s => Except.ok s)
        (fun s => Except.ok s) (fun _ => Except.ok (RemoteResponse.rlist []))
        { name := "T1", transaction_type := "BUY",
          instrument := some { exchange := "NSE", token := "26000", symbol := "X",
                               name := "", expiry := "", lot_size := 1 },
          quantity := 1, order_type := "MARKET",
          product_type := "MIS" }).remotePayloads.map
      (fun p => (p.price, p.is_amo))) = [((some 0 : Option Rat), some false)] := rfl

/-- C7 (amended): in `place_order` the `None`-valued optionals (trigger
price, stop-loss, square-off, trailing stop) are omitted from the remote
payload and the present ones are passed through, but `price`, the
after-market flag and the tag are always included, defaults included; in
`_build_order_dict` every optional field is included only when
present/non-default (`price` only when positive, `is_amo` only when true). -/
theorem optional_field_inclusion
    (txnEnum orderEnum productEnum : String → Except String String)
    (remote : PlaceOrderPayload → Except String RemoteResponse)
    (spec : OrderSpec) (inst : Instrument) (txn ord prod : String)
    (hinst : spec.instrument = some inst)
    (htxn : txnEnum spec.transaction_type = Except.ok txn)
    (hord : orderEnum spec.order_type = Except.ok ord)
    (hprod : productEnum spec.product_type = Except.ok prod) :
    (∃ p, (place_order txnEnum orderEnum productEnum remote spec).remotePayloads = [p] ∧
      p.trigger_price = spec.trigger_price ∧ p.stop_loss = spec.stop_loss ∧
      p.square_off = spec.square_off ∧ p.trailing_sl = spec.trailing_sl ∧
      p.price = some spec.price ∧ p.is_amo = some spec.is_amo ∧
      p.order_tag = some spec.order_tag) ∧
    (∀ (remoteEq : String → String → Except String RawInstrument)
       (st : ResolverState) (od : OrderData) (d : BasketOrderDict),
      (build_order_dict txnEnum orderEnum productEnum remoteEq st od).result =
        Except.ok d →
      d.price = (if od.price > 0 then some od.price else none) ∧
      d.trigger_price = od.trigger_price ∧ d.stop_loss = od.stop_loss ∧
      d.square_off = od.square_off ∧ d.trailing_sl = od.trailing_sl ∧
      d.is_amo = (if od.is_amo then some true else none)) := by
  constructor
  · refine ⟨buildOrderParams spec inst txn ord prod, ?_, rfl, rfl, rfl, rfl, rfl, rfl, rfl⟩
    simp only [place_order, hinst, htxn, hord, hprod]
    cases hr : remote (buildOrderParams spec inst txn ord prod) with
    | ok r => simp [hr]
    | error e => simp [hr]
  · intro remoteEq st od d hd
    simp only [build_order_dict] at hd
    split at hd
    · simp at hd
    · split at hd
      · simp at hd
      · split at hd
        · simp at hd
        · split at hd
          · simp at hd
          · simp only [Except.ok.injEq] at hd
            subst hd
            exact ⟨rfl, rfl, rfl, rfl, rfl, rfl⟩

/-- Witness for C7 (amended): a concrete spec with a trigger price set and
the rest defaulted, and a concrete basket leg. -/
theorem optional_field_inclusion_witness :
    (∃ p, (place_order (fun s => Except.ok s) (fun s => Except.ok s)
        (fun s => Except.ok s) (fun _ => Except.ok (RemoteResponse.rlist []))
        { name := "T2", transaction_type := "BUY",
          instrument := some { exchange := "NSE", token := "26000", symbol := "X",
                               name := "", expiry := "", lot_size := 1 },
          quantity := 2, order_type := "SL_LIMIT", product_type := "MIS",
          price := 5, trigger_price := some 100 }).remotePayloads = [p] ∧
      p.trigger_price = some 100 ∧ p.stop_loss = none ∧
      p.square_off = none ∧ p.trailing_sl = none ∧
      p.price = some 5 ∧ p.is_amo = some false ∧ p.order_tag = some "") ∧
    (∀ (remoteEq : String → String → Except String RawInstrument)
       (st : ResolverState) (od : OrderData) (d : BasketOrderDict),
      (build_order_dict (fun s => Except.ok s) (fun s => Except.ok s)
          (fun s => Except.ok s) remoteEq st od).result = Except.ok d →
      d.price = (if od.price > 0 then some od.price else none) ∧
      d.trigger_price = od.trigger_price ∧ d.stop_loss = od.stop_loss ∧
      d.square_off = od.square_off ∧ d.trailing_sl = od.trailing_sl ∧
      d.is_amo = (if od.is_amo then some true else none)) :=
  optional_field_inclusion _ _ _ _
    { name := "T2", transaction_type := "BUY",
      instrument := some { exchange := "NSE", token := "26000", symbol := "X",
                           name := "", expiry := "", lot_size := 1 },
      quantity := 2, order_type := "SL_LIMIT", product_type := "MIS",
      price := 5, trigger_price := some 100 }
    { exchange := "NSE", token := "26000", symbol := "X",
      name := "", expiry := "", lot_size := 1 }
    "BUY" "SL_LIMIT" "MIS" rfl rfl rfl rfl

/-! ## C8 — no dynamic fallback for underscore keys -/

theorem execOrderStep_attempts_no_underscore
    (txnEnum orderEnum productEnum : String → Except String String)
    (resolveRemote : String → String → Except String RawInstrument)
    (placeRemote : PlaceOrderPayload → Except String RemoteResponse)
    (account_name : String) (st : TaskState) (od : OrderData) (k : String)
    (hk : k ∈ (execOrderStep txnEnum orderEnum productEnum resolveRemote
      placeRemote account_name st od).dynamicAttempts) :
    pyInStr '_' k = false := by
  simp only [execOrderStep] at hk
  by_cases hen : od.enabled = true
  · rw [if_pos hen] at hk
    by_cases hok : instrumentOk (dictGet st.instruments (stripUpper od.instrument)) = true
    · rw [if_pos hok] at hk
      simp at hk
    · rw [if_neg hok] at hk
      by_cases hund : pyInStr '_' (stripUpper od.instrument) = true
      · rw [if_pos hund] at hk
        simp at hk
      · rw [if_neg hund] at hk
        have hfalse : pyInStr '_' (stripUpper od.instrument) = false := by
          cases hcc : pyInStr '_' (stripUpper od.instrument)
          · rfl
          · exact absurd hcc hund
        split at hk
        · split at hk
          · simp at hk
            subst hk
            exact hfalse
          · simp at hk
            subst hk
            exact hfalse
        · simp at hk
          subst hk
          exact hfalse
  · rw [if_neg hen] at hk
    simp at hk

/-- C8: an enabled order whose normalized instrument key contains an
underscore and is absent from (or unresolved in) the pre-resolved table is
skipped — no dynamic resolution attempt, no result record, no state change,
one warning naming the key — while the remaining orders are processed
normally; and every dynamic resolution attempt issued by the loop is for a
key containing no underscore. -/
theorem underscore_keys_skip_without_dynamic_resolution
    (txnEnum orderEnum productEnum : String → Except String String)
    (resolveRemote : String → String → Except String RawInstrument)
    (placeRemote : PlaceOrderPayload → Except String RemoteResponse)
    (account_name : String) :
    (∀ (st : TaskState) (od : OrderData) (rest : List OrderData),
      od.enabled = true →
      pyInStr '_' (stripUpper od.instrument) = true →
      instrumentOk (dictGet st.instruments (stripUpper od.instrument)) = false →
      runOrders txnEnum orderEnum productEnum resolveRemote placeRemote
          account_name st (od :: rest) =
        { state := (runOrders txnEnum orderEnum productEnum resolveRemote
            placeRemote account_name st rest).state,
          records := (runOrders txnEnum orderEnum productEnum resolveRemote
            placeRemote account_name st rest).records,
          dynamicAttempts := (runOrders txnEnum orderEnum productEnum resolveRemote
            placeRemote account_name st rest).dynamicAttempts,
          warnings := ("❌ Invalid F&O instrument " ++ stripUpper od.instrument ++
              ", skipping") ::
            (runOrders txnEnum orderEnum productEnum resolveRemote placeRemote
              account_name st rest).warnings }) ∧
    (∀ (orders : List OrderData) (st : TaskState) (k : String),
      k ∈ (runOrders txnEnum orderEnum productEnum resolveRemote placeRemote
        account_name st orders).dynamicAttempts →
      pyInStr '_' k = false) := by
  constructor
  · intro st od rest hen hund hbad
    have hstep : execOrderStep txnEnum orderEnum productEnum resolveRemote
        placeRemote account_name st od =
        { state := st, records := [], dynamicAttempts := [],
          warnings := ["❌ Invalid F&O instrument " ++ stripUpper od.instrument ++
            ", skipping"] } := by
      unfold execOrderStep
      simp [hen, hund, hbad]
    simp only [runOrders]
    rw [hstep]
    simp
  · intro orders
    induction orders with
    | nil =>
      intro st k hk
      simp [runOrders] at hk
    | cons od rest ih =>
      intro st k hk
      simp only [runOrders, List.mem_append] at hk
      rcases hk with hk | hk
      · exact execOrderStep_attempts_no_underscore txnEnum orderEnum productEnum
          resolveRemote placeRemote account_name st od k hk
      · exact ih _ _ hk

/-- Witness for C8: the spec's scenario — the key `NIFTY_DEC30_CE_26000`
absent from the table is skipped with a warning and zero dynamic attempts. -/
theorem underscore_keys_skip_witness :
    runOrders (fun s => Except.ok s) (fun s => Except.ok s) (fun s => Except.ok s)
      (fun _ _ => Except.error "no remote")
      (fun _ => Except.ok (RemoteResponse.rlist []))
      "ACC1" { instruments := [], cache := [] }
      [{ name := "O1", instrument := "NIFTY_DEC30_CE_26000",
         transaction_type := "BUY", quantity := 75,
         order_type := "MARKET", product_type := "MIS" }] =
      { state := { instruments := [], cache := [] }, records := [],
        dynamicAttempts := [],
        warnings := ["❌ Invalid F&O instrument NIFTY_DEC30_CE_26000, skipping"] } := by
  have h := (underscore_keys_skip_without_dynamic_resolution
    (fun s => Except.ok s) (fun s => Except.ok s) (fun s => Except.ok s)
    (fun _ _ => Except.error "no remote")
    (fun _ => Except.ok (RemoteResponse.rlist [])) "ACC1").1
    { instruments := [], cache := [] }
    { name := "O1", instrument := "NIFTY_DEC30_CE_26000",
      transaction_type := "BUY", quantity := 75,
      order_type := "MARKET", product_type := "MIS" } []
    rfl (by decide) (by decide)
  exact h

/-! ## C9 — basket tagging mutates the input (shallow copy) -/

/-- C9 is the intent but the code slips: `_tag_basket_orders` does tag every
leg of the returned basket with `<account>_<original tag>`, but
`basket.copy()` is shallow, so the same mutated leg dicts are what the input
basket now holds — the input basket specification is NOT left unchanged. -/
theorem tag_basket_orders_shallow_copy_mutation :
    ((tag_basket_orders
        { name := "B1", enabled := true,
          orders := [{ name := "L1", instrument := "RELIANCE",
                       transaction_type := "BUY", quantity := 1,
                       order_type := "MARKET", product_type := "MIS",
                       order_tag := "t1" }] } "ACC1").2.orders.map
      (fun o => o.order_tag) = ["ACC1_t1"]) ∧
    ((tag_basket_orders
        { name := "B1", enabled := true,
          orders := [{ name := "L1", instrument := "RELIANCE",
                       transaction_type := "BUY", quantity := 1,
                       order_type := "MARKET", product_type := "MIS",
                       order_tag := "t1" }] } "ACC1").1 ≠
      { name := "B1", enabled := true,
        orders := [{ name := "L1", instrument := "RELIANCE",
                     transaction_type := "BUY", quantity := 1,
                     order_type := "MARKET", product_type := "MIS",
                     order_tag := "t1" }] }) := by
  constructor
  · rfl
  · decide

end CpTrade
